import Mathlib

/-!
Verification development for the go-logger repository's rotation subsystem
and configuration validation.

The Go sources are shallowly embedded:
* `DateTime`, `isoWeek` — the fragment of Go's `time` package used by
  `rotation.go` (calendar fields and `Time.ISOWeek`, translated from Go's
  find-the-Thursday algorithm over a civil-days conversion);
* `goFormat` — Go's `time.Format` restricted to the numeric reference
  chunks `2006`, `01`, `02`, `03`, `04`, `05`, `15`, `1`..`5` (every layout
  occurring in this repository uses only these chunks and literal bytes);
* `goDir`, `goBase`, `goExt`, `goJoin`, `goClean`, `trimSuffix` — Go's
  `path/filepath` (Unix separator) and `strings.TrimSuffix`;
* `shouldRotateByTime`, `rotateByTime`, `generateTimestampedFilename`,
  `TimeRotatingWriter.write`, `NewTimeRotatingWriter` — `rotation.go`,
  with the external lumberjack sink modelled by its observable state
  (the bound filename and a log of successfully written payloads) and
  per-call outcomes of its fallible `Close`/`Write` operations
  (`SinkBehavior`); the wall clock is passed explicitly;
* `Config.Validate`, `GetEffectiveConfig` — `config_builder.go` and the
  environment-config file, with the value-receiver body's local mutations
  made explicit as `Config.validateBody` (normalized copy, returned error).
-/

namespace GoLogger

/-- Civil wall-clock timestamp: the fields of Go's `time.Time` that
`rotation.go` reads (`Year`, `Month`, `Day`, `Hour`, plus minute/second
for format completeness). -/
structure DateTime where
  year : Int
  month : Nat
  day : Nat
  hour : Nat
  minute : Nat
  second : Nat
deriving DecidableEq

/-- Days since 1970-01-01 of a civil date (proleptic Gregorian),
standard civil-from-days conversion using floor division. -/
def daysFromCivil (y : Int) (m d : Nat) : Int :=
  let yAdj : Int := if m ≤ 2 then y - 1 else y
  let era : Int := Int.fdiv yAdj 400
  let yoe : Int := yAdj - era * 400
  let mp : Int := if m ≥ 3 then (m : Int) - 3 else (m : Int) + 9
  let doy : Int := Int.fdiv (153 * mp + 2) 5 + (d : Int) - 1
  let doe : Int := yoe * 365 + Int.fdiv yoe 4 - Int.fdiv yoe 100 + doy
  era * 146097 + doe - 719468

/-- Inverse of `daysFromCivil`: (year, month, day) of a day number. -/
def civilFromDays (z0 : Int) : Int × Nat × Nat :=
  let z := z0 + 719468
  let era := Int.fdiv z 146097
  let doe := z - era * 146097
  let yoe := Int.fdiv (doe - Int.fdiv doe 1460 + Int.fdiv doe 36524 - Int.fdiv doe 146096) 365
  let y := yoe + era * 400
  let doy := doe - (365 * yoe + Int.fdiv yoe 4 - Int.fdiv yoe 100)
  let mp := Int.fdiv (5 * doy + 2) 153
  let d := doy - Int.fdiv (153 * mp + 2) 5 + 1
  let m := if mp < 10 then mp + 3 else mp - 9
  (if m ≤ 2 then y + 1 else y, m.toNat, d.toNat)

/-- Go `time.Time.ISOWeek`: returns (ISO year, ISO week number).
Translation of Go's algorithm: move to the Thursday of the current
ISO week (weeks start Monday; Go weekday numbering has Sunday = 0 and
1970-01-01 is a Thursday), then the week number is that Thursday's
zero-based day-of-year divided by 7, plus 1, and the ISO year is the
Thursday's calendar year. -/
def isoWeek (t : DateTime) : Int × Nat :=
  let z := daysFromCivil t.year t.month t.day
  let wday := (z + 4).emod 7
  let d : Int := if wday = 0 then -3 else 4 - wday
  let zThu := z + d
  let isoYear := (civilFromDays zThu).1
  let yday0 := (zThu - daysFromCivil isoYear 1 1).toNat
  (isoYear, yday0 / 7 + 1)

/-- Zero-padded two-digit decimal, as Go's format chunks `01`, `02`,
`04`, `05`, `15` render their field. -/
def pad2 (n : Nat) : String :=
  if n < 10 then "0" ++ toString n else toString n

/-- Go's `2006` year chunk: decimal year zero-padded to four digits,
sign first for negative years. -/
def pad4 (y : Int) : String :=
  let s := toString y.natAbs
  let padded := if s.length ≥ 4 then s else String.mk (List.replicate (4 - s.length) '0') ++ s
  if y < 0 then "-" ++ padded else padded

/-- Go's 12-hour clock value used by the `3` and `03` chunks. -/
def hour12 (h : Nat) : Nat :=
  let r := h % 12
  if r = 0 then 12 else r

/-- Core of Go `time.Format`: scan the layout for reference chunks,
longest match first (`2006` before `2`, `15` before `1`, `0x` pairs),
copying every other byte literally. In particular the byte `W` is not a
reference chunk and is copied literally, and `01` always means the
zero-padded month. -/
def goFormatChars (t : DateTime) : List Char → List Char
  | '2' :: '0' :: '0' :: '6' :: rest => (pad4 t.year).toList ++ goFormatChars t rest
  | '0' :: '1' :: rest => (pad2 t.month).toList ++ goFormatChars t rest
  | '0' :: '2' :: rest => (pad2 t.day).toList ++ goFormatChars t rest
  | '0' :: '3' :: rest => (pad2 (hour12 t.hour)).toList ++ goFormatChars t rest
  | '0' :: '4' :: rest => (pad2 t.minute).toList ++ goFormatChars t rest
  | '0' :: '5' :: rest => (pad2 t.second).toList ++ goFormatChars t rest
  | '1' :: '5' :: rest => (pad2 t.hour).toList ++ goFormatChars t rest
  | '1' :: rest => (toString t.month).toList ++ goFormatChars t rest
  | '2' :: rest => (toString t.day).toList ++ goFormatChars t rest
  | '3' :: rest => (toString (hour12 t.hour)).toList ++ goFormatChars t rest
  | '4' :: rest => (toString t.minute).toList ++ goFormatChars t rest
  | '5' :: rest => (toString t.second).toList ++ goFormatChars t rest
  | c :: rest => c :: goFormatChars t rest
  | [] => []

/-- Go `t.Format(layout)` for the numeric layouts used in this
repository. -/
def goFormat (layout : String) (t : DateTime) : String :=
  String.mk (goFormatChars t layout.toList)

/-- Split a character list at `/` separators (as `strings.Split` with
separator `/`); the accumulator holds the current component reversed. -/
def splitOnSlash : List Char → List Char → List (List Char)
  | [], acc => [acc.reverse]
  | '/' :: rest, acc => acc.reverse :: splitOnSlash rest []
  | c :: rest, acc => splitOnSlash rest (c :: acc)

/-- Join components with `/` separators. -/
def joinSlash : List (List Char) → List Char
  | [] => []
  | [x] => x
  | x :: xs => x ++ '/' :: joinSlash xs

/-- Component stack of Go `filepath.Clean`: drop empty and `.`
components; `..` pops a component, stacks up at the front when the path
is relative, and is dropped at the root when the path is rooted. -/
def cleanStack (rooted : Bool) : List (List Char) → List (List Char) → List (List Char)
  | stack, [] => stack
  | stack, c :: cs =>
    if c = [] ∨ c = ['.'] then cleanStack rooted stack cs
    else if c = ['.', '.'] then
      match stack with
      | [] => cleanStack rooted (if rooted then [] else [['.', '.']]) cs
      | top :: rest =>
        if top = ['.', '.'] then cleanStack rooted (['.', '.'] :: top :: rest) cs
        else cleanStack rooted rest cs
    else cleanStack rooted (c :: stack) cs

/-- Go `filepath.Clean` (Unix rules): empty path cleans to `.`, a rooted
path keeps its leading `/`, and an empty result is `.` (or `/` when
rooted). -/
def goClean (path : String) : String :=
  if path = "" then "."
  else
    let cs := path.toList
    let rooted : Bool := cs.head? = some '/'
    let stack := (cleanStack rooted [] (splitOnSlash cs [])).reverse
    if rooted then
      if stack = [] then "/" else String.mk ('/' :: joinSlash stack)
    else
      if stack = [] then "." else String.mk (joinSlash stack)

/-- Go `filepath.Dir`: drop the trailing run of non-separator bytes,
then `Clean` what remains. -/
def goDir (path : String) : String :=
  goClean (String.mk ((path.toList.reverse.dropWhile (fun c => c ≠ '/')).reverse))

/-- Go `filepath.Base`: strip trailing separators, keep everything after
the last remaining separator; all-separator paths give `/`, the empty
path gives `.`. -/
def goBase (path : String) : String :=
  if path = "" then "."
  else
    let l := (path.toList.reverse.dropWhile (fun c => c = '/')).reverse
    let last := (l.reverse.takeWhile (fun c => c ≠ '/')).reverse
    if last = [] then "/" else String.mk last

/-- Go `filepath.Ext`: the suffix starting at the final dot in the final
slash-separated element, empty if that element has no dot. -/
def goExt (path : String) : String :=
  let rev := path.toList.reverse.takeWhile (fun c => c ≠ '/')
  let pre := rev.takeWhile (fun c => c ≠ '.')
  if pre.length = rev.length then "" else String.mk ('.' :: pre.reverse)

/-- Go `strings.TrimSuffix` over character lists. -/
def trimSuffixChars (l suf : List Char) : List Char :=
  if l.drop (l.length - suf.length) = suf then l.take (l.length - suf.length) else l

/-- Go `strings.TrimSuffix`. -/
def trimSuffix (s suf : String) : String :=
  String.mk (trimSuffixChars s.toList suf.toList)

/-- Go `filepath.Join` of two elements: join the non-empty elements with
`/` and `Clean` the result; all-empty input gives the empty string. -/
def goJoin (a b : String) : String :=
  if a = "" then
    if b = "" then "" else goClean b
  else goClean (a ++ "/" ++ b)

/-- The `RotationMode` string constants of `config.go`. -/
def RotationModeSize : String := "size"

/-- Time-only rotation mode constant. -/
def RotationModeTime : String := "time"

/-- Size-and-time rotation mode constant. -/
def RotationModeBoth : String := "both"

/-- The `TimeRotationInterval` string constant for hourly rotation. -/
def RotationHourly : String := "hourly"

/-- Daily rotation interval constant. -/
def RotationDaily : String := "daily"

/-- Weekly rotation interval constant. -/
def RotationWeekly : String := "weekly"

/-- Monthly rotation interval constant. -/
def RotationMonthly : String := "monthly"

/-- Environment name constants of `config.go`. -/
def EnvDevelopment : String := "development"

/-- Staging environment constant. -/
def EnvStaging : String := "staging"

/-- Production environment constant. -/
def EnvProduction : String := "production"

/-- Test environment constant. -/
def EnvTest : String := "test"

/-- Log level constants of `config.go`. -/
def LevelDebug : String := "debug"

/-- Info level constant. -/
def LevelInfo : String := "info"

/-- Warn level constant. -/
def LevelWarn : String := "warn"

/-- Error level constant. -/
def LevelError : String := "error"

/-- Fatal level constant. -/
def LevelFatal : String := "fatal"

/-- Panic level constant. -/
def LevelPanic : String := "panic"

/-- Encoding constants of `config.go`. -/
def EncodingJSON : String := "json"

/-- Console encoding constant. -/
def EncodingConsole : String := "console"

/-- `FileOptions` of `config.go`; `FileMode` is the numeric permission
value of `os.FileMode`. -/
structure FileOptions where
  Filename : String
  MaxSize : Int
  MaxAge : Int
  MaxBackups : Int
  LocalTime : Bool
  Compress : Bool
  FileMode : Nat
  CreateDir : Bool
  RotationMode : String
  TimeRotationInterval : String
  TimeRotationFormat : String
deriving DecidableEq

/-- `Config` of `config.go`. -/
structure Config where
  Level : String
  Environment : String
  OutputPaths : List String
  Encoding : String
  fileOptions : FileOptions
deriving DecidableEq

/-- `Config.IsProduction` of `config_builder.go`. -/
def Config.IsProduction (c : Config) : Bool :=
  c.Environment = EnvProduction

/-- The keys of the `validLevels` map literal in `Config.Validate`. -/
def validLevels : List String :=
  [LevelDebug, LevelInfo, LevelWarn, LevelError, LevelFatal, LevelPanic]

/-- The keys of the `validEnvs` map literal in `Config.Validate`. -/
def validEnvs : List String :=
  [EnvDevelopment, EnvStaging, EnvProduction, EnvTest]

/-- The keys of the `validEncodings` map literal in `Config.Validate`. -/
def validEncodings : List String :=
  [EncodingJSON, EncodingConsole]

/-- Body of `Config.Validate` (`config_builder.go`): the receiver is a
by-value copy, so the Go function's assignments mutate a local copy.
This definition returns that local copy at the `return nil` point
together with the returned error, which is always `nil` (`none`). -/
def Config.validateBody (c : Config) : Config × Option String :=
  let c1 := if validLevels.contains c.Level then c else { c with Level := LevelInfo }
  let c2 := if validEnvs.contains c1.Environment then c1 else { c1 with Environment := EnvDevelopment }
  let c3 :=
    if validEncodings.contains c2.Encoding then c2
    else if c2.IsProduction then { c2 with Encoding := EncodingJSON }
    else { c2 with Encoding := EncodingConsole }
  let c4 := if c3.OutputPaths = [] then { c3 with OutputPaths := ["stdout"] } else c3
  (c4, none)

/-- `Config.Validate`: what the caller observes — the returned error
only, since the receiver copy is discarded. -/
def Config.Validate (c : Config) : Option String :=
  (Config.validateBody c).2

/-- `GetEffectiveConfig`: calls `Validate` on the config produced by
`ConfigFromEnv` and returns that config. `ConfigFromEnv` reads the
process environment, so its result is taken as a parameter here. The
`Validate` call is on a value receiver, so its normalizations do not
reach `config`. -/
def GetEffectiveConfig (envConfig : Config) : Config :=
  let config := envConfig
  let _validation := config.Validate
  config

/-- Default time-format selection of `NewTimeRotatingWriter`
(`rotation.go`): the `switch options.TimeRotationInterval` that runs
when no custom format is configured. -/
def defaultTimeFormat (interval : String) : String :=
  if interval = RotationHourly then "2006-01-02-15"
  else if interval = RotationDaily then "2006-01-02"
  else if interval = RotationWeekly then "2006-W01"
  else if interval = RotationMonthly then "2006-01"
  else "2006-01-02"

/-- Time format actually used by the writer: the configured
`TimeRotationFormat` if non-empty, else the interval default. -/
def selectTimeFormat (options : FileOptions) : String :=
  if options.TimeRotationFormat = "" then defaultTimeFormat options.TimeRotationInterval
  else options.TimeRotationFormat

/-- `generateTimestampedFilename` of `rotation.go`. -/
def generateTimestampedFilename (baseFilename : String) (t : DateTime) (timeFormat : String) : String :=
  let dir := goDir baseFilename
  let filename := goBase baseFilename
  let ext := goExt filename
  let nameWithoutExt := trimSuffix filename ext
  let timestamp := goFormat timeFormat t
  let timestampedName := nameWithoutExt ++ "-" ++ timestamp ++ ext
  goJoin dir timestampedName

/-- State of a `TimeRotatingWriter` (`rotation.go`): its own fields
plus the observable state of the wrapped lumberjack sink — the
`Filename` the sink is bound to and, as a history variable, the list of
(bound filename, payload) pairs the sink has successfully written. -/
structure TimeRotatingWriter where
  options : FileOptions
  currentTimeFormat : String
  lastRotationTime : DateTime
  baseFilename : String
  loggerFilename : String
  sinkLog : List (String × List Nat)
deriving DecidableEq

/-- Per-call outcomes of the external sink's fallible operations:
`closeErr` is what `Logger.Close` would return during a rotation on
this call, `writeErr` what the delegated `Logger.Write` would return
(lumberjack opens the file lazily inside `Write`, so a failure to open
the new segment surfaces here). -/
structure SinkBehavior where
  closeErr : Option String
  writeErr : Option String
deriving DecidableEq

/-- `NewTimeRotatingWriter` (`rotation.go`), with `time.Now()` passed
explicitly. -/
def NewTimeRotatingWriter (options : FileOptions) (now : DateTime) : TimeRotatingWriter :=
  let timeFormat := selectTimeFormat options
  let timestampedFilename := generateTimestampedFilename options.Filename now timeFormat
  { options := options
    currentTimeFormat := timeFormat
    lastRotationTime := now
    baseFilename := options.Filename
    loggerFilename := timestampedFilename
    sinkLog := [] }

/-- `shouldRotateByTime` (`rotation.go`): the `switch` over the
configured interval. Hourly/Daily/Monthly compare calendar fields;
Weekly compares the ISO week number from `ISOWeek()` (the ISO year is
discarded) together with the calendar `Year()`. Unrecognized intervals
fall through to `false`. -/
def shouldRotateByTime (interval : String) (last now : DateTime) : Bool :=
  if interval = RotationHourly then
    now.hour != last.hour || now.day != last.day || now.month != last.month || now.year != last.year
  else if interval = RotationDaily then
    now.day != last.day || now.month != last.month || now.year != last.year
  else if interval = RotationWeekly then
    (isoWeek now).2 != (isoWeek last).2 || now.year != last.year
  else if interval = RotationMonthly then
    now.month != last.month || now.year != last.year
  else false

/-- `rotateByTime` (`rotation.go`): close the current sink — on a close
error return it with no state change; otherwise rebind the sink to the
new timestamped filename and set `lastRotationTime = now`. -/
def rotateByTime (w : TimeRotatingWriter) (now : DateTime) (closeErr : Option String) : Except String TimeRotatingWriter :=
  match closeErr with
  | some e => Except.error e
  | none =>
    let newFilename := generateTimestampedFilename w.baseFilename now w.currentTimeFormat
    Except.ok { w with loggerFilename := newFilename, lastRotationTime := now }

/-- The delegated `Logger.Write` of the external sink: on success it
appends the payload to the segment the sink is currently bound to and
returns the payload length; on failure (including a failed lazy open of
the segment) it writes nothing and returns the error. -/
def loggerWrite (w : TimeRotatingWriter) (p : List Nat) (writeErr : Option String) : TimeRotatingWriter × Nat × Option String :=
  match writeErr with
  | some e => (w, 0, some e)
  | none => ({ w with sinkLog := w.sinkLog ++ [(w.loggerFilename, p)] }, p.length, none)

/-- `TimeRotatingWriter.Write` (`rotation.go`): under the writer lock,
if the rotation check fires, rotate (aborting with the close error on
failure, with `n = 0` and nothing written), then delegate to the sink. -/
def TimeRotatingWriter.write (w : TimeRotatingWriter) (p : List Nat) (now : DateTime) (b : SinkBehavior) : TimeRotatingWriter × Nat × Option String :=
  if shouldRotateByTime w.options.TimeRotationInterval w.lastRotationTime now then
    match rotateByTime w now b.closeErr with
    | Except.error e => (w, 0, some e)
    | Except.ok w2 => loggerWrite w2 p b.writeErr
  else loggerWrite w p b.writeErr

/-- One call to `write`: the wall-clock time, the payload, and the
external sink's outcomes for this call. -/
structure WriteCall where
  now : DateTime
  payload : List Nat
  behavior : SinkBehavior
deriving DecidableEq

/-- Whether a given call performs a rotation: the check fires and the
close succeeds. -/
def didRotate (w : TimeRotatingWriter) (c : WriteCall) : Bool :=
  shouldRotateByTime w.options.TimeRotationInterval w.lastRotationTime c.now && c.behavior.closeErr.isNone

/-- Run a sequence of `write` calls, returning the final state and the
number of rotations performed. -/
def writeAll : TimeRotatingWriter → List WriteCall → TimeRotatingWriter × Nat
  | w, [] => (w, 0)
  | w, c :: cs =>
    let w2 := (TimeRotatingWriter.write w c.payload c.now c.behavior).1
    let r := writeAll w2 cs
    (r.1, (if didRotate w c then 1 else 0) + r.2)

/-- Every sink operation in the sequence succeeds. -/
def allOk (cs : List WriteCall) : Bool :=
  cs.all fun c => c.behavior = ⟨none, none⟩

/-- Sample options: daily time rotation on `app.log` with no custom
format. -/
def sampleFileOptions : FileOptions :=
  { Filename := "app.log"
    MaxSize := 100
    MaxAge := 30
    MaxBackups := 10
    LocalTime := false
    Compress := true
    FileMode := 420
    CreateDir := true
    RotationMode := RotationModeTime
    TimeRotationInterval := RotationDaily
    TimeRotationFormat := "" }

/-- Sample writer constructed at 2024-01-01 10:00:00. -/
def sampleWriter : TimeRotatingWriter :=
  NewTimeRotatingWriter sampleFileOptions ⟨2024, 1, 1, 10, 0, 0⟩

/-- Options with an unrecognized (empty) rotation interval. -/
def unknownIntervalOptions : FileOptions :=
  { sampleFileOptions with TimeRotationInterval := "" }

/-- Writer configured with the unrecognized interval. -/
def unknownIntervalWriter : TimeRotatingWriter :=
  NewTimeRotatingWriter unknownIntervalOptions ⟨2024, 1, 1, 10, 0, 0⟩

/-- A config that is invalid in all four validated respects. -/
def badConfig : Config :=
  { Level := "verbose"
    Environment := "prod"
    OutputPaths := []
    Encoding := "xml"
    fileOptions := sampleFileOptions }

/-- First call of the burst for the collapsed-boundary scenario: two
days after the writer's last rotation. -/
def callA : WriteCall :=
  { now := ⟨2024, 1, 3, 9, 0, 0⟩, payload := [10, 20], behavior := ⟨none, none⟩ }

/-- Second call of the burst, later the same day. -/
def callB : WriteCall :=
  { now := ⟨2024, 1, 3, 15, 0, 0⟩, payload := [30], behavior := ⟨none, none⟩ }

/-- Third call of the burst, still the same day. -/
def callC : WriteCall :=
  { now := ⟨2024, 1, 3, 23, 59, 59⟩, payload := [40, 50], behavior := ⟨none, none⟩ }

/-- A successful delegated sink write preserves the writer's options. -/
theorem loggerWrite_options (w : TimeRotatingWriter) (p : List Nat) (we : Option String) :
    (loggerWrite w p we).1.options = w.options := by
  cases we <;> rfl

/-- The delegated sink write never touches `lastRotationTime`. -/
theorem loggerWrite_lastRotationTime (w : TimeRotatingWriter) (p : List Nat) (we : Option String) :
    (loggerWrite w p we).1.lastRotationTime = w.lastRotationTime := by
  cases we <;> rfl

/-- When the rotation check does not fire, `write` is exactly the
delegated sink write. -/
theorem write_of_not_should {w : TimeRotatingWriter} {p : List Nat} {now : DateTime} {b : SinkBehavior}
    (h : shouldRotateByTime w.options.TimeRotationInterval w.lastRotationTime now = false) :
    TimeRotatingWriter.write w p now b = loggerWrite w p b.writeErr := by
  simp [TimeRotatingWriter.write, h]

/-- When the rotation check fires and the close succeeds, `write` is
the delegated sink write on the rotated state. -/
theorem write_of_rotate {w : TimeRotatingWriter} {p : List Nat} {now : DateTime} {b : SinkBehavior}
    (h : shouldRotateByTime w.options.TimeRotationInterval w.lastRotationTime now = true)
    (hc : b.closeErr = none) :
    TimeRotatingWriter.write w p now b =
      loggerWrite
        { w with
          loggerFilename := generateTimestampedFilename w.baseFilename now w.currentTimeFormat
          lastRotationTime := now }
        p b.writeErr := by
  simp [TimeRotatingWriter.write, h, rotateByTime, hc]

/-- When the rotation check fires and the close fails, `write` aborts
with the close error and the state untouched. -/
theorem write_of_close_error {w : TimeRotatingWriter} {p : List Nat} {now : DateTime} {b : SinkBehavior} {e : String}
    (h : shouldRotateByTime w.options.TimeRotationInterval w.lastRotationTime now = true)
    (hc : b.closeErr = some e) :
    TimeRotatingWriter.write w p now b = (w, 0, some e) := by
  simp [TimeRotatingWriter.write, h, rotateByTime, hc]

/-- A sequence of calls none of which fires the rotation check performs
no rotation. -/
theorem writeAll_rotations_zero : ∀ (cs : List WriteCall) (w : TimeRotatingWriter),
    (∀ c ∈ cs, shouldRotateByTime w.options.TimeRotationInterval w.lastRotationTime c.now = false) →
    (writeAll w cs).2 = 0
  | [], _, _ => rfl
  | c :: cs, w, h => by
    have hc : shouldRotateByTime w.options.TimeRotationInterval w.lastRotationTime c.now = false :=
      h c (List.mem_cons_self c cs)
    have hw : TimeRotatingWriter.write w c.payload c.now c.behavior = loggerWrite w c.payload c.behavior.writeErr :=
      write_of_not_should hc
    have hopts : (TimeRotatingWriter.write w c.payload c.now c.behavior).1.options = w.options := by
      rw [hw]; exact loggerWrite_options w c.payload c.behavior.writeErr
    have hlast : (TimeRotatingWriter.write w c.payload c.now c.behavior).1.lastRotationTime = w.lastRotationTime := by
      rw [hw]; exact loggerWrite_lastRotationTime w c.payload c.behavior.writeErr
    have hrec := writeAll_rotations_zero cs (TimeRotatingWriter.write w c.payload c.now c.behavior).1
      (fun c2 h2 => by rw [hopts, hlast]; exact h c2 (List.mem_cons_of_mem c h2))
    have hdid : didRotate w c = false := by simp [didRotate, hc]
    simp [writeAll, hdid, hrec]

/-- C1: the code compares the ISO week number against the calendar
year, not the ISO year. For `last = 2024-12-30` and `now = 2025-01-02`
— both in ISO week 2025-W01, where the claim requires `false` — the
code returns `true` (calendar years differ). Conversely, for
`last = 2024-01-01` (ISO 2024-W01) and `now = 2024-12-30`
(ISO 2025-W01) — different ISO years, where the claim requires `true` —
the code returns `false` (equal week numbers, equal calendar years),
missing the rotation. -/
theorem claim_c1_weekly_iso_year_bug :
    shouldRotateByTime RotationWeekly ⟨2024, 12, 30, 12, 0, 0⟩ ⟨2025, 1, 2, 12, 0, 0⟩ = true
  ∧ isoWeek ⟨2024, 12, 30, 12, 0, 0⟩ = (2025, 1)
  ∧ isoWeek ⟨2025, 1, 2, 12, 0, 0⟩ = (2025, 1)
  ∧ shouldRotateByTime RotationWeekly ⟨2024, 1, 1, 12, 0, 0⟩ ⟨2024, 12, 30, 12, 0, 0⟩ = false
  ∧ isoWeek ⟨2024, 1, 1, 12, 0, 0⟩ = (2024, 1) := by decide

/-- C2: if the rotation check fires and closing the active sink fails,
`write` returns that error with `n = 0`, the payload reaches no sink,
and the whole writer state — in particular `lastRotationTime` — is
unchanged. -/
theorem claim_c2_close_failure (w : TimeRotatingWriter) (p : List Nat) (now : DateTime)
    (e : String) (wErr : Option String)
    (h : shouldRotateByTime w.options.TimeRotationInterval w.lastRotationTime now = true) :
    (TimeRotatingWriter.write w p now ⟨some e, wErr⟩).1 = w
  ∧ (TimeRotatingWriter.write w p now ⟨some e, wErr⟩).2.1 = 0
  ∧ (TimeRotatingWriter.write w p now ⟨some e, wErr⟩).2.2 = some e := by
  rw [write_of_close_error h rfl]
  exact ⟨rfl, rfl, rfl⟩

/-- C2 witness: daily writer last rotated 2024-01-01, written to on
2024-01-02 with a failing close. -/
theorem claim_c2_close_failure_witness :
    shouldRotateByTime sampleWriter.options.TimeRotationInterval sampleWriter.lastRotationTime ⟨2024, 1, 2, 8, 0, 0⟩ = true
  ∧ (TimeRotatingWriter.write sampleWriter [1, 2, 3] ⟨2024, 1, 2, 8, 0, 0⟩ ⟨some "close failed", none⟩).1 = sampleWriter
  ∧ (TimeRotatingWriter.write sampleWriter [1, 2, 3] ⟨2024, 1, 2, 8, 0, 0⟩ ⟨some "close failed", none⟩).2.1 = 0
  ∧ (TimeRotatingWriter.write sampleWriter [1, 2, 3] ⟨2024, 1, 2, 8, 0, 0⟩ ⟨some "close failed", none⟩).2.2 = some "close failed" := by
  have h : shouldRotateByTime sampleWriter.options.TimeRotationInterval sampleWriter.lastRotationTime ⟨2024, 1, 2, 8, 0, 0⟩ = true := by decide
  have hc := claim_c2_close_failure sampleWriter [1, 2, 3] ⟨2024, 1, 2, 8, 0, 0⟩ "close failed" none h
  exact ⟨h, hc.1, hc.2.1, hc.2.2⟩

/-- C3 counterexample: a rotation whose close succeeds but whose new
segment fails to open. The open happens lazily inside the delegated
sink write, so the call fails (error returned, `n = 0`, nothing
written), yet `lastRotationTime` has already advanced to `now` and does
not keep its prior value, contrary to the claim. -/
theorem claim_c3_counterexample :
    (TimeRotatingWriter.write sampleWriter [7] ⟨2024, 1, 2, 8, 0, 0⟩ ⟨none, some "open failed"⟩).2.2 = some "open failed"
  ∧ (TimeRotatingWriter.write sampleWriter [7] ⟨2024, 1, 2, 8, 0, 0⟩ ⟨none, some "open failed"⟩).2.1 = 0
  ∧ (TimeRotatingWriter.write sampleWriter [7] ⟨2024, 1, 2, 8, 0, 0⟩ ⟨none, some "open failed"⟩).1.sinkLog = sampleWriter.sinkLog
  ∧ (TimeRotatingWriter.write sampleWriter [7] ⟨2024, 1, 2, 8, 0, 0⟩ ⟨none, some "open failed"⟩).1.lastRotationTime = ⟨2024, 1, 2, 8, 0, 0⟩
  ∧ sampleWriter.lastRotationTime ≠ ⟨2024, 1, 2, 8, 0, 0⟩ := by decide

/-- C3 (amended): `rotateByTime` can fail only in the close — on a
close error it returns that error with the state untouched, so the next
write retries the same boundary; on a successful close it rebinds the
sink to the new filename and advances `lastRotationTime` to `now` in
the same step (constructing the new sink binding cannot fail). Opening
the new segment is deferred to the delegated sink write: its failure
surfaces as the write error of a call on which `lastRotationTime` has
already advanced and the sink is already bound to the new filename. -/
theorem claim_c3_rotation_state :
    (∀ (w : TimeRotatingWriter) (now : DateTime) (e : String),
      rotateByTime w now (some e) = Except.error e)
  ∧ (∀ (w : TimeRotatingWriter) (now : DateTime),
      rotateByTime w now none =
        Except.ok
          { w with
            loggerFilename := generateTimestampedFilename w.baseFilename now w.currentTimeFormat
            lastRotationTime := now })
  ∧ (∀ (w : TimeRotatingWriter) (p : List Nat) (now : DateTime) (e : String) (wErr : Option String),
      shouldRotateByTime w.options.TimeRotationInterval w.lastRotationTime now = true →
      (TimeRotatingWriter.write w p now ⟨some e, wErr⟩).1.lastRotationTime = w.lastRotationTime)
  ∧ (∀ (w : TimeRotatingWriter) (p : List Nat) (now : DateTime) (e : String),
      shouldRotateByTime w.options.TimeRotationInterval w.lastRotationTime now = true →
      (TimeRotatingWriter.write w p now ⟨none, some e⟩).2.2 = some e
    ∧ (TimeRotatingWriter.write w p now ⟨none, some e⟩).2.1 = 0
    ∧ (TimeRotatingWriter.write w p now ⟨none, some e⟩).1.sinkLog = w.sinkLog
    ∧ (TimeRotatingWriter.write w p now ⟨none, some e⟩).1.lastRotationTime = now
    ∧ (TimeRotatingWriter.write w p now ⟨none, some e⟩).1.loggerFilename =
        generateTimestampedFilename w.baseFilename now w.currentTimeFormat) := by
  refine ⟨fun w now e => rfl, fun w now => rfl, ?_, ?_⟩
  · intro w p now e wErr h
    rw [write_of_close_error h rfl]
  · intro w p now e h
    rw [write_of_rotate h rfl]
    exact ⟨rfl, rfl, rfl, rfl, rfl⟩

/-- C3 witness for the amended statement: the daily sample writer at
the 2024-01-02 boundary, once with a failing close and once with a
failing open of the new segment. -/
theorem claim_c3_rotation_state_witness :
    shouldRotateByTime sampleWriter.options.TimeRotationInterval sampleWriter.lastRotationTime ⟨2024, 1, 2, 8, 0, 0⟩ = true
  ∧ (TimeRotatingWriter.write sampleWriter [9] ⟨2024, 1, 2, 8, 0, 0⟩ ⟨some "boom", none⟩).1.lastRotationTime = sampleWriter.lastRotationTime
  ∧ (TimeRotatingWriter.write sampleWriter [9] ⟨2024, 1, 2, 8, 0, 0⟩ ⟨none, some "open failed"⟩).1.lastRotationTime = ⟨2024, 1, 2, 8, 0, 0⟩ := by
  have h : shouldRotateByTime sampleWriter.options.TimeRotationInterval sampleWriter.lastRotationTime ⟨2024, 1, 2, 8, 0, 0⟩ = true := by decide
  exact ⟨h, claim_c3_rotation_state.2.2.1 sampleWriter [9] ⟨2024, 1, 2, 8, 0, 0⟩ "boom" none h,
    (claim_c3_rotation_state.2.2.2 sampleWriter [9] ⟨2024, 1, 2, 8, 0, 0⟩ "open failed" h).2.2.2.1⟩

/-- C4: the default formats are chosen per interval as the claim lists
them, and Hourly/Daily/Monthly render `YYYY-MM-DD-HH` / `YYYY-MM-DD` /
`YYYY-MM`; but in the Weekly default `"2006-W01"` the chunk `01` is
Go's zero-padded month, so for 2024-03-05 (ISO week 10) it renders
`2024-W03` — the month, not the ISO week number the claim requires. -/
theorem claim_c4_default_formats :
    defaultTimeFormat RotationHourly = "2006-01-02-15"
  ∧ defaultTimeFormat RotationDaily = "2006-01-02"
  ∧ defaultTimeFormat RotationWeekly = "2006-W01"
  ∧ defaultTimeFormat RotationMonthly = "2006-01"
  ∧ goFormat (defaultTimeFormat RotationHourly) ⟨2024, 3, 5, 7, 0, 0⟩ = "2024-03-05-07"
  ∧ goFormat (defaultTimeFormat RotationDaily) ⟨2024, 3, 5, 7, 0, 0⟩ = "2024-03-05"
  ∧ goFormat (defaultTimeFormat RotationMonthly) ⟨2024, 3, 5, 7, 0, 0⟩ = "2024-03"
  ∧ goFormat (defaultTimeFormat RotationWeekly) ⟨2024, 3, 5, 7, 0, 0⟩ = "2024-W03"
  ∧ (isoWeek ⟨2024, 3, 5, 7, 0, 0⟩).2 = 10
  ∧ ("2024-W03" : String) ≠ "2024-W10" := by decide

/-- C5: for every base path, timestamp and format string the generated
path is the base path's directory joined with
`<stem>-<formattedTimestamp><ext>`, where stem and ext split the base
filename at its final extension separator; with the spec's example
`/var/log/app.log` at 2024-03-05 under `2006-01-02`, and with an
extensionless base path carrying no extension suffix. -/
theorem claim_c5_filename_shape :
    (∀ (basePath : String) (t : DateTime) (timeFormat : String),
      generateTimestampedFilename basePath t timeFormat =
        goJoin (goDir basePath)
          (trimSuffix (goBase basePath) (goExt (goBase basePath)) ++ "-" ++
            goFormat timeFormat t ++ goExt (goBase basePath)))
  ∧ generateTimestampedFilename "/var/log/app.log" ⟨2024, 3, 5, 0, 0, 0⟩ "2006-01-02" = "/var/log/app-2024-03-05.log"
  ∧ generateTimestampedFilename "/var/log/app" ⟨2024, 3, 5, 0, 0, 0⟩ "2006-01-02" = "/var/log/app-2024-03-05" := by
  refine ⟨fun basePath t timeFormat => rfl, by decide, by decide⟩

/-- C6: with the Weekly interval and its default format, 2024-04-30 and
2024-05-01 lie in the same rotation bucket (`shouldRotate` is false:
both ISO week 18, same year) yet render different paths, because the
default weekly format prints the month; this refutes idempotence for
the Weekly interval. -/
theorem claim_c6_weekly_idempotence_bug :
    shouldRotateByTime RotationWeekly ⟨2024, 4, 30, 9, 0, 0⟩ ⟨2024, 5, 1, 9, 0, 0⟩ = false
  ∧ (isoWeek ⟨2024, 4, 30, 9, 0, 0⟩).2 = 18
  ∧ (isoWeek ⟨2024, 5, 1, 9, 0, 0⟩).2 = 18
  ∧ generateTimestampedFilename "app.log" ⟨2024, 4, 30, 9, 0, 0⟩ (defaultTimeFormat RotationWeekly) = "app-2024-W04.log"
  ∧ generateTimestampedFilename "app.log" ⟨2024, 5, 1, 9, 0, 0⟩ (defaultTimeFormat RotationWeekly) = "app-2024-W05.log"
  ∧ ("app-2024-W04.log" : String) ≠ "app-2024-W05.log" := by decide

/-- C7: each write performs at most one rotation, and for a run of
successful writes whose first call crosses one or more rotation
boundaries while all later calls stay in the first call's bucket,
exactly one rotation is performed in total. -/
theorem claim_c7_single_rotation :
    (∀ (w : TimeRotatingWriter) (c : WriteCall), (writeAll w [c]).2 ≤ 1)
  ∧ (∀ (w : TimeRotatingWriter) (c : WriteCall) (cs : List WriteCall),
      allOk (c :: cs) = true →
      shouldRotateByTime w.options.TimeRotationInterval w.lastRotationTime c.now = true →
      (∀ c2 ∈ cs, shouldRotateByTime w.options.TimeRotationInterval c.now c2.now = false) →
      (writeAll w (c :: cs)).2 = 1) := by
  constructor
  · intro w c
    simp only [writeAll]
    split <;> simp
  · intro w c cs hall hfire hsame
    have hb : c.behavior = ⟨none, none⟩ := by
      simp [allOk, List.all_cons, decide_eq_true_eq] at hall
      exact hall.1
    have hc : c.behavior.closeErr = none := by rw [hb]
    have hw := write_of_rotate (p := c.payload) hfire hc
    have hopts : (TimeRotatingWriter.write w c.payload c.now c.behavior).1.options = w.options := by
      rw [hw]; rw [loggerWrite_options]
    have hlast : (TimeRotatingWriter.write w c.payload c.now c.behavior).1.lastRotationTime = c.now := by
      rw [hw]; rw [loggerWrite_lastRotationTime]
    have hzero := writeAll_rotations_zero cs (TimeRotatingWriter.write w c.payload c.now c.behavior).1
      (fun c2 h2 => by rw [hopts, hlast]; exact hsame c2 h2)
    have hdid : didRotate w c = true := by simp [didRotate, hfire, hc]
    simp [writeAll, hdid, hzero]

/-- C7 witness: the daily sample writer, idle since 2024-01-01,
receives a three-write burst on 2024-01-03 (two missed boundaries
collapse) — exactly one rotation. -/
theorem claim_c7_single_rotation_witness :
    allOk [callA, callB, callC] = true
  ∧ shouldRotateByTime sampleWriter.options.TimeRotationInterval sampleWriter.lastRotationTime callA.now = true
  ∧ (∀ c2 ∈ [callB, callC], shouldRotateByTime sampleWriter.options.TimeRotationInterval callA.now c2.now = false)
  ∧ (writeAll sampleWriter [callA, callB, callC]).2 = 1 := by
  refine ⟨by decide, by decide, by decide, ?_⟩
  exact claim_c7_single_rotation.2 sampleWriter callA [callB, callC] (by decide) (by decide) (by decide)

/-- C8: the Hourly predicate is exactly "hour-of-day, day-of-month,
month, or year differ", Daily drops the hour, Monthly keeps month and
year; with the claim's Daily boundary examples. -/
theorem claim_c8_field_predicates :
    (∀ last now : DateTime, shouldRotateByTime RotationHourly last now = true ↔
        (now.hour ≠ last.hour ∨ now.day ≠ last.day ∨ now.month ≠ last.month ∨ now.year ≠ last.year))
  ∧ (∀ last now : DateTime, shouldRotateByTime RotationDaily last now = true ↔
        (now.day ≠ last.day ∨ now.month ≠ last.month ∨ now.year ≠ last.year))
  ∧ (∀ last now : DateTime, shouldRotateByTime RotationMonthly last now = true ↔
        (now.month ≠ last.month ∨ now.year ≠ last.year))
  ∧ shouldRotateByTime RotationDaily ⟨2024, 1, 1, 23, 59, 59⟩ ⟨2024, 1, 2, 0, 0, 0⟩ = true
  ∧ shouldRotateByTime RotationDaily ⟨2024, 1, 1, 10, 0, 0⟩ ⟨2024, 1, 1, 18, 0, 0⟩ = false := by
  refine ⟨?_, ?_, ?_, by decide, by decide⟩
  · intro last now
    unfold shouldRotateByTime
    rw [if_pos rfl]
    simp [bne_iff_ne, or_assoc]
  · intro last now
    unfold shouldRotateByTime
    rw [if_neg (by decide), if_pos rfl]
    simp [bne_iff_ne, or_assoc]
  · intro last now
    unfold shouldRotateByTime
    rw [if_neg (by decide), if_neg (by decide), if_neg (by decide), if_pos rfl]
    simp [bne_iff_ne]

/-- C9: `Validate` always returns `nil` and, being a value-receiver
method, leaves the caller's config unchanged — `GetEffectiveConfig`
returns the env-derived config as-is; on a config invalid in all four
validated respects, the normalized local copy differs from the
receiver, i.e. the computed normalizations are discarded. -/
theorem claim_c9_validate_noop :
    (∀ c : Config, Config.Validate c = none)
  ∧ (∀ c : Config, GetEffectiveConfig c = c)
  ∧ (Config.validateBody badConfig).1.Level = LevelInfo
  ∧ (Config.validateBody badConfig).1.Environment = EnvDevelopment
  ∧ (Config.validateBody badConfig).1.Encoding = EncodingConsole
  ∧ (Config.validateBody badConfig).1.OutputPaths = ["stdout"]
  ∧ (Config.validateBody badConfig).1 ≠ badConfig := by
  exact ⟨fun c => rfl, fun c => rfl, by decide, by decide, by decide, by decide, by decide⟩

/-- C10: an interval outside the four recognized constants makes
`shouldRotateByTime` constantly false, and a writer configured with
such an interval executes every `write` as a plain delegated sink
write, never rotating. -/
theorem claim_c10_unknown_interval :
    ∀ interval : String,
      interval ∉ [RotationHourly, RotationDaily, RotationWeekly, RotationMonthly] →
      (∀ last now : DateTime, shouldRotateByTime interval last now = false)
    ∧ (∀ (w : TimeRotatingWriter) (p : List Nat) (now : DateTime) (b : SinkBehavior),
        w.options.TimeRotationInterval = interval →
        TimeRotatingWriter.write w p now b = loggerWrite w p b.writeErr) := by
  intro interval h
  simp only [List.mem_cons, List.not_mem_nil, or_false, not_or] at h
  obtain ⟨h1, h2, h3, h4⟩ := h
  have hfalse : ∀ last now : DateTime, shouldRotateByTime interval last now = false := by
    intro last now
    unfold shouldRotateByTime
    rw [if_neg h1, if_neg h2, if_neg h3, if_neg h4]
  refine ⟨hfalse, ?_⟩
  intro w p now b hw
  apply write_of_not_should
  rw [hw]
  exact hfalse w.lastRotationTime now

/-- C10 witness: the empty interval string. -/
theorem claim_c10_unknown_interval_witness :
    ("" : String) ∉ [RotationHourly, RotationDaily, RotationWeekly, RotationMonthly]
  ∧ shouldRotateByTime "" ⟨2024, 1, 1, 0, 0, 0⟩ ⟨2025, 6, 7, 8, 0, 0⟩ = false
  ∧ TimeRotatingWriter.write unknownIntervalWriter [5] ⟨2025, 6, 7, 8, 0, 0⟩ ⟨none, none⟩ =
      loggerWrite unknownIntervalWriter [5] none := by
  have h : ("" : String) ∉ [RotationHourly, RotationDaily, RotationWeekly, RotationMonthly] := by decide
  exact ⟨h, (claim_c10_unknown_interval "" h).1 ⟨2024, 1, 1, 0, 0, 0⟩ ⟨2025, 6, 7, 8, 0, 0⟩,
    (claim_c10_unknown_interval "" h).2 unknownIntervalWriter [5] ⟨2025, 6, 7, 8, 0, 0⟩ ⟨none, none⟩ rfl⟩

end GoLogger
